import Mathlib

/-!
# WorkerConnect backend — verification of the SAML card-scan bridge

Shallow embedding of the authentication/session bridge of the
`workerconnection-backend` repository: the JS value helpers, the API response
envelope (`src/utils/response.js`), device detection
(`src/utils/deviceDetection.js`), the SAML session middleware
(`src/middleware/samlAuth.js`), the session-token injection middleware
(`src/server.js`), and the SAML routes (`acsHandler`, `/card-scan`,
`/saml/logout`, `/saml/status` in `src/routes/saml.js`), together with the
cookie-signature fallback-token scheme.

JS strings that may be `undefined`/`null` are modelled as `Option String`;
JS truthiness, `||`, template interpolation and `trim()` are modelled
explicitly below.
-/

namespace WorkerConnect

/-! ## JS value helpers -/

/-- Truthiness of a JS string-or-undefined value: `undefined`/`null` and the
empty string are falsy, every other string is truthy. -/
def jsTruthy : Option String → Bool
  | none => false
  | some s => !(s == "")

/-- JS `a || b` on string-or-undefined values. -/
def jsOr (a b : Option String) : Option String :=
  if jsTruthy a then a else b

/-- JS `a || d` where the right operand is a plain string (so the result is a
string). -/
def jsOrD (a : Option String) (d : String) : String :=
  match a with
  | none => d
  | some s => if s == "" then d else s

/-- JS template interpolation `${v}` of a possibly-undefined value. -/
def jsToString : Option String → String
  | none => "undefined"
  | some s => s

/-- Whitespace test used to model JS `String.prototype.trim` (the ASCII
whitespace characters). -/
def jsIsWs (c : Char) : Bool := c.isWhitespace

/-- JS `s.trim()`: drop leading and trailing whitespace. -/
def jsTrim (s : String) : String :=
  ⟨((s.data.dropWhile jsIsWs).reverse.dropWhile jsIsWs).reverse⟩

/-- Boolean prefix test on char lists (JS `hay.startsWith(needle)`). -/
def jsStartsWith (hay needle : String) : Bool :=
  needle.data.isPrefixOf hay.data

/-- Boolean infix test on char lists. -/
def isInfixB (needle : List Char) : List Char → Bool
  | [] => needle.isEmpty
  | h :: t => needle.isPrefixOf (h :: t) || isInfixB needle t

/-- JS `hay.includes(needle)`. -/
def jsIncludes (hay needle : String) : Bool :=
  isInfixB needle.data hay.data

/-- JS `s.toLowerCase()` (restricted to ASCII case mapping). -/
def jsToLower (s : String) : String := ⟨s.data.map Char.toLower⟩

/-! ## `src/utils/response.js` — API response envelope -/

/-- The `error` object built by `errorResponse`. -/
structure ApiError where
  code : String
  message : String
  target : Option String
  details : List String
deriving Repr, DecidableEq

/-- The response envelope `{correlationId, data, error}` common to
`successResponse` and `errorResponse`. -/
structure ApiResponse (α : Type) where
  correlationId : String
  data : Option α
  error : Option ApiError
deriving Repr, DecidableEq

/-- `successResponse(data, correlationId)`; `uuid` stands for the `uuidv4()`
draw used when no correlation id is supplied. -/
def successResponse {α : Type} (d : α) (correlationId : Option String)
    (uuid : String) : ApiResponse α :=
  { correlationId := jsOrD correlationId uuid
    data := some d
    error := none }

/-- `errorResponse(code, message, target, details, correlationId)`. -/
def errorResponse {α : Type} (code message : String) (target : Option String)
    (details : List String) (correlationId : Option String) (uuid : String) :
    ApiResponse α :=
  { correlationId := jsOrD correlationId uuid
    data := none
    error := some { code := code, message := message, target := target, details := details } }

namespace ERROR_CODES

def VALIDATION_ERROR : String := "VALIDATION_ERROR"
def AUTHENTICATION_ERROR : String := "AUTHENTICATION_ERROR"
def AUTHORIZATION_ERROR : String := "AUTHORIZATION_ERROR"
def INTERNAL_ERROR : String := "INTERNAL_ERROR"

end ERROR_CODES

/-! ## Request and session model -/

/-- The user-attribute record extracted from a SAML profile by the passport
strategy callback in `src/routes/saml.js`. -/
structure SamlUser where
  nameID : Option String
  employeeNumber : Option String
  email : Option String
  firstName : Option String
  lastName : Option String
deriving Repr, DecidableEq

/-- The raw SAML profile delivered by passport-saml (only the attributes the
strategy callback reads). -/
structure SamlProfile where
  nameID : Option String
  employeeNumber : Option String
  claimNameIdentifier : Option String
  email : Option String
  claimEmailAddress : Option String
  firstName : Option String
  givenName : Option String
  lastName : Option String
  surname : Option String
deriving Repr, DecidableEq

/-- The attribute extraction performed by the SAML strategy verify callback
(`userAttributes` in `src/routes/saml.js`): each field is a JS `||` chain over
profile attributes. -/
def extractSamlUser (p : SamlProfile) : SamlUser :=
  { nameID := jsOr p.nameID p.claimNameIdentifier
    employeeNumber := jsOr (jsOr p.employeeNumber p.employeeNumber) p.claimNameIdentifier
    email := jsOr p.email p.claimEmailAddress
    firstName := jsOr p.firstName p.givenName
    lastName := jsOr p.lastName p.surname }

/-- The object stored in `req.session.user` by `acsHandler`. -/
structure SessionUser where
  nameID : Option String
  workerId : Option String
  employeeNumber : Option String
  email : Option String
  firstName : Option String
  lastName : Option String
  name : String
  cardId : Option String
  establishmentId : Option String
  role : String
deriving Repr, DecidableEq

/-- The express session record (the fields read or written by the SAML
routes and middleware). `passport` models the presence of
`req.session.passport`. -/
structure SessionData where
  pendingCardId : Option String
  user : Option SessionUser
  samlUser : Option SamlUser
  loginRole : Option String
  passport : Bool
  isMobileApp : Bool
deriving Repr, DecidableEq

/-- The headers read by the middleware and handlers. -/
structure Headers where
  cookie : Option String
  xSessionToken : Option String
  xAppPlatform : Option String
  xClientType : Option String
  origin : Option String
  referer : Option String
  userAgent : Option String
  contentType : Option String
deriving Repr, DecidableEq

/-- The query parameters read by device detection and the fallback bridge. -/
structure Query where
  platform : Option String
  app : Option String
  sessionToken : Option String
deriving Repr, DecidableEq

/-- An inbound request: headers, query, session state, the passport-restored
`req.user` and the express session id. -/
structure Req where
  headers : Headers
  query : Query
  session : SessionData
  user : Option SamlUser
  sessionID : String
deriving Repr, DecidableEq

/-- Server environment: the relevant `process.env` configuration plus the
external primitives (the keyed HMAC of the cookie-signature library, JS
`encodeURIComponent`, and the `uuidv4()` draw), which are code outside this
repository and therefore kept abstract. -/
structure Env where
  mobileAppUrl : Option String
  clientUrl : Option String
  sessionSecretHmac : String → String
  encodeURIComponent : String → String
  uuid : String

/-! ## `src/utils/deviceDetection.js` -/

/-- Origin prefixes recognised as mobile-app shells (`mobileOriginPatterns`). -/
def mobileOriginPatterns : List String :=
  ["http://localhost", "capacitor://localhost", "ionic://localhost",
   "http://localhost:8080", "file://"]

/-- User-agent substrings recognised as mobile-app identifiers
(`mobileAppIdentifiers`). -/
def mobileAppIdentifiers : List String :=
  ["WorkerConnect", "WorkerConnectApp", "ReactNative", "Capacitor", "Cordova", "Ionic"]

/-- `isMobileApp(req)`: the five ordered detection rules. -/
def isMobileApp (req : Req) : Bool :=
  if req.headers.xAppPlatform == some "mobile" || req.headers.xClientType == some "mobile-app" then
    true
  else
    let origin := jsOr req.headers.origin req.headers.referer
    if jsTruthy origin &&
        mobileOriginPatterns.any (fun p => jsStartsWith (origin.getD "") p) then
      true
    else
      let userAgent := req.headers.userAgent.getD ""
      if mobileAppIdentifiers.any (fun i => jsIncludes userAgent i) then
        true
      else if req.query.platform == some "mobile" || req.query.app == some "true" then
        true
      else
        req.session.isMobileApp

/-- The case-insensitive user-agent patterns of `isMobileBrowser`. -/
def mobileBrowserPatterns : List String :=
  ["Android", "webOS", "iPhone", "iPad", "iPod", "BlackBerry", "Windows Phone", "Mobile"]

/-- `isMobileBrowser(req)`: a mobile-browser user agent that is not a mobile
app. -/
def isMobileBrowser (req : Req) : Bool :=
  let userAgent := req.headers.userAgent.getD ""
  (mobileBrowserPatterns.any (fun p => jsIncludes (jsToLower userAgent) (jsToLower p))) &&
    !(isMobileApp req)

/-- The device classification of `detectDeviceMiddleware`. -/
inductive DeviceType where
  | mobileApp
  | mobileBrowser
  | desktopBrowser
deriving Repr, DecidableEq

/-- The classification branch of `detectDeviceMiddleware` (the value stored
in `req.deviceType`). -/
def detectDevice (req : Req) : DeviceType :=
  if isMobileApp req then .mobileApp
  else if isMobileBrowser req then .mobileBrowser
  else .desktopBrowser

/-- `detectDeviceMiddleware` also persists the sticky mobile flag on the
session when the request classifies as a mobile app. -/
def detectDeviceMiddleware (req : Req) : DeviceType × SessionData :=
  if isMobileApp req then (.mobileApp, { req.session with isMobileApp := true })
  else if isMobileBrowser req then (.mobileBrowser, req.session)
  else (.desktopBrowser, req.session)

/-- `getRedirectUrl(req, path)`: device-dependent base URL plus the path,
with the env defaults of the source. -/
def getRedirectUrl (env : Env) (req : Req) (path : String) : String :=
  let cleanPath := if jsStartsWith path "/" then path else "/" ++ path
  if isMobileApp req then
    jsOrD env.mobileAppUrl "http://localhost" ++ cleanPath
  else
    jsOrD env.clientUrl "http://localhost:5173" ++ cleanPath

/-! ## Session fallback token (cookie-signature format)

`acsHandler` produces the fallback token as
`'s:' + signature.sign(req.sessionID, process.env.SESSION_SECRET)`; the
cookie-signature library computes `val + '.' + hmac(val)` where `hmac` is the
base64-encoded HMAC-SHA256 under the secret (kept abstract here, folded into
`Env.sessionSecretHmac`). -/

/-- cookie-signature `sign(val, secret)`: `val + '.' + hmac(val)`. -/
def signCookie (hmac : String → String) (v : String) : String :=
  v ++ "." ++ hmac v

/-- The full fallback token built in `acsHandler`: `'s:' + sign(...)`. -/
def signToken (hmac : String → String) (v : String) : String :=
  "s:" ++ signCookie hmac v

/-- Split a char list at its last `'.'`: `some (before, after)` with `after`
dot-free, or `none` when no dot occurs (the JS `lastIndexOf('.')`). -/
def splitLastDot : List Char → Option (List Char × List Char)
  | [] => none
  | c :: cs =>
    match splitLastDot cs with
    | some (a, b) => some (c :: a, b)
    | none => if c = '.' then some ([], cs) else none

/-- Modelled from the spec: `verifyAndResolve` of the Session Fallback Bridge
(§4.5). The verification half lives in the external cookie-signature /
express-session libraries, not under `src/`; this follows the library's
`unsign`: `tentative = input.slice(0, input.lastIndexOf('.'))` (which drops
the last character when no dot occurs, as JS `slice(0, -1)` does), re-sign the
tentative value and accept exactly on equality. -/
def unsignCookie (hmac : String → String) (input : String) : Option String :=
  let tentative : String :=
    match splitLastDot input.data with
    | some (a, _) => ⟨a⟩
    | none => ⟨input.data.dropLast⟩
  if signCookie hmac tentative = input then some tentative else none

/-- Modelled from the spec: resolution of a full fallback token (§4.5):
express-session only unsigns cookie values that carry the `s:` prefix. -/
def verifyAndResolve (hmac : String → String) (t : String) : Option String :=
  match t.data with
  | c1 :: c2 :: rest => if c1 = 's' ∧ c2 = ':' then unsignCookie hmac ⟨rest⟩ else none
  | _ => none

/-- A single-bit mutation of a string: one character replaced by the character
whose code differs in exactly one bit (and which is a genuinely different
character). -/
def SingleBitMutation (t t' : String) : Prop :=
  ∃ l c k r, c.toNat ^^^ (1 <<< k) = (Char.ofNat (c.toNat ^^^ (1 <<< k))).toNat ∧
    t.data = l ++ c :: r ∧
    t'.data = l ++ Char.ofNat (c.toNat ^^^ (1 <<< k)) :: r ∧
    Char.ofNat (c.toNat ^^^ (1 <<< k)) ≠ c

/-! ## `src/server.js` — session-token injection middleware -/

/-- The middleware at `src/server.js:124-132`: when no cookie is present but
the `X-Session-Token` header is, reconstruct the cookie string
`saml.sid=<token>`. -/
def sessionTokenMiddleware (req : Req) : Req :=
  if !jsTruthy req.headers.cookie && jsTruthy req.headers.xSessionToken then
    { req with headers :=
        { req.headers with
            cookie := some ("saml.sid=" ++ req.headers.xSessionToken.getD "") } }
  else req

/-! ## `src/middleware/samlAuth.js` -/

/-- `clearSamlSession(req)`: deletes `samlUser`, `pendingCardId` and
`passport` from the session (and nothing else). -/
def clearSamlSession (s : SessionData) : SessionData :=
  { s with samlUser := none, pendingCardId := none, passport := false }

/-- The guard of `requireSamlAuth`: `req.user` present and
`req.session.samlUser` present. -/
def requireSamlAuthPasses (req : Req) : Bool :=
  req.user.isSome && req.session.samlUser.isSome

/-! ## `src/routes/saml.js` — route handlers -/

/-- A route response: an error JSON with an HTTP status, a success JSON, or
an HTTP redirect. -/
inductive RouteResp (α : Type) where
  | errorJson (status : Nat) (body : ApiResponse Unit)
  | okJson (body : ApiResponse α)
  | redirect (url : String)
deriving Repr, DecidableEq

/-- Outcome of a handler: the session afterwards (`none` = destroyed), the
passport login (`req.user`) afterwards, and the response. -/
structure HandlerOut (α : Type) where
  session : Option SessionData
  user : Option SamlUser
  resp : RouteResp α
deriving Repr, DecidableEq

/-- The session-establishment and redirect tail of `acsHandler` (after card
validation succeeded or was skipped): store `req.session.user`, pick the
role dashboard path, compose the device redirect and append the signed
session token. -/
def acsEstablish (env : Env) (req : Req) (sess : SessionData) (samlUser : SamlUser) :
    HandlerOut Unit :=
  let user : SessionUser :=
    { nameID := samlUser.nameID
      workerId := samlUser.employeeNumber
      employeeNumber := samlUser.employeeNumber
      email := samlUser.email
      firstName := samlUser.firstName
      lastName := samlUser.lastName
      name := jsTrim (jsToString samlUser.firstName ++ " " ++ jsOrD samlUser.lastName "")
      cardId := samlUser.employeeNumber
      establishmentId := none
      role := jsOrD sess.loginRole "worker" }
  let sess := { sess with user := some user }
  let targetRole := user.role
  let redirectPath :=
    if targetRole = "establishment" then "/dashboard/establishment"
    else if targetRole = "department" then "/dashboard/department"
    else "/dashboard/worker"
  let redirectUrl := getRedirectUrl env req redirectPath
  let signedSessionId := "s:" ++ signCookie env.sessionSecretHmac req.sessionID
  let separator := if jsIncludes redirectUrl "?" then "&" else "?"
  let redirectUrl :=
    redirectUrl ++ separator ++ "session_token=" ++ env.encodeURIComponent signedSessionId
  { session := some sess, user := some samlUser, resp := .redirect redirectUrl }

/-- `acsHandler(req, res)` after a successful passport-saml validation
(`samlUser = req.user`): card-id validation against the pending scan, then
session establishment and the device redirect. -/
def acsHandler (env : Env) (req : Req) (samlUser : SamlUser) : HandlerOut Unit :=
  let pendingCardId := req.session.pendingCardId
  if jsTruthy pendingCardId then
    let userIdentifier := jsOr samlUser.employeeNumber samlUser.nameID
    if userIdentifier ≠ pendingCardId then
      { session := some (clearSamlSession req.session)
        user := none
        resp := .errorJson 403 (errorResponse ERROR_CODES.AUTHORIZATION_ERROR
          "Card ID does not match authenticated user. Access denied."
          (some "cardValidation") [] none env.uuid) }
    else
      acsEstablish env req { req.session with pendingCardId := none } samlUser
  else
    acsEstablish env req req.session samlUser

/-- A JS request-body value, as far as the card-scan validation inspects it:
a string, or some other value with its truthiness. -/
inductive JsVal where
  | jstr (s : String)
  | jother (truthy : Bool)
deriving Repr, DecidableEq

/-- JS truthiness of a body value. -/
def jsValTruthy : Option JsVal → Bool
  | none => false
  | some (.jstr s) => !(s == "")
  | some (.jother b) => b

/-- JS `typeof v === 'string'`. -/
def jsValIsString : Option JsVal → Bool
  | some (.jstr _) => true
  | _ => false

/-- The validation test of `POST /card-scan`:
`!cardId || typeof cardId !== 'string' || cardId.trim().length === 0`
(the third disjunct is only reached when the value is a string). -/
def cardIdInvalid (v : Option JsVal) : Bool :=
  !jsValTruthy v || !jsValIsString v ||
    (match v with
     | some (.jstr s) => jsTrim s == ""
     | _ => true)

/-- The JSON success payload of `POST /card-scan`. -/
structure CardScanPayload where
  message : String
  cardId : String
  redirectTo : String
deriving Repr, DecidableEq

/-- `POST /card-scan`: validate the body `cardId`, log out first when the
session is considered logged in (`req.session.samlUser && req.user`), store
the trimmed card id as `pendingCardId`, and answer with JSON or a redirect
depending on the request content type. -/
def cardScanHandler (env : Env) (req : Req) (cardId : Option JsVal) :
    HandlerOut CardScanPayload :=
  if cardIdInvalid cardId then
    { session := some req.session
      user := req.user
      resp := .errorJson 400 (errorResponse ERROR_CODES.VALIDATION_ERROR
        "cardId is required and must be a non-empty string" (some "cardId") [] none env.uuid) }
  else
    let s := match cardId with | some (.jstr s) => s | _ => ""
    let trimmedCardId := jsTrim s
    let isLoggedIn := req.session.samlUser.isSome && req.user.isSome
    let sess1 := if isLoggedIn then clearSamlSession req.session else req.session
    let user1 := if isLoggedIn then none else req.user
    let sess2 := { sess1 with pendingCardId := some trimmedCardId }
    let resp : RouteResp CardScanPayload :=
      if jsIncludes (req.headers.contentType.getD "") "application/json" then
        .okJson (successResponse
          { message := "Card scan received. Redirecting to SAML login."
            cardId := trimmedCardId
            redirectTo := "/saml/login" } none env.uuid)
      else
        .redirect "/saml/login"
    { session := some sess2, user := user1, resp := resp }

/-- The JSON success payload of `POST /saml/logout`. -/
structure LogoutPayload where
  message : String
  redirectTo : String
deriving Repr, DecidableEq

/-- `POST /saml/logout`: the `requireSamlAuth` middleware runs first; on
success the handler clears the SAML session, logs out of passport and
destroys the session, answering with JSON or a redirect. -/
def logoutRoute (env : Env) (req : Req) : HandlerOut LogoutPayload :=
  if !requireSamlAuthPasses req then
    { session := some req.session
      user := req.user
      resp := .errorJson 401 (errorResponse ERROR_CODES.AUTHENTICATION_ERROR
        "SAML authentication required. Please login via /saml/login"
        (some "authentication") [] none env.uuid) }
  else
    let resp : RouteResp LogoutPayload :=
      if jsIncludes (req.headers.contentType.getD "") "application/json" then
        .okJson (successResponse
          { message := "Logout successful", redirectTo := "/login" } none env.uuid)
      else
        .redirect "/login"
    { session := none, user := none, resp := resp }

/-- The body of `GET /saml/status`. -/
structure StatusResp where
  isAuthenticated : Bool
  user : Option (SessionUser ⊕ SamlUser)
deriving Repr, DecidableEq

/-- `GET /saml/status`: `req.isAuthenticated() || (req.session && req.session.user)`,
reporting `req.session.user || req.user`. -/
def statusRoute (req : Req) : StatusResp :=
  let isAuth := req.user.isSome || req.session.user.isSome
  if isAuth then
    { isAuthenticated := true
      user :=
        match req.session.user with
        | some u => some (Sum.inl u)
        | none => req.user.map Sum.inr }
  else
    { isAuthenticated := false, user := none }

/-! ## Spec-side formula for the ACS redirect (§4.4/§4.5 of the spec)

`roleDashboardPath` and `specRedirectUrl` follow the spec's words — the
role's fixed dashboard path, the device-class base URL, and the
unconditionally appended signed session token — to be compared with the
redirect the source's `acsHandler` actually constructs. -/

/-- The role's fixed dashboard path. -/
def roleDashboardPath (role : String) : String :=
  if role = "establishment" then "/dashboard/establishment"
  else if role = "department" then "/dashboard/department"
  else "/dashboard/worker"

/-- The redirect the spec promises: device-class base ++ role dashboard path,
with the signed session token always appended as a `session_token` query
parameter. -/
def specRedirectUrl (env : Env) (req : Req) : String :=
  let base :=
    if isMobileApp req then jsOrD env.mobileAppUrl "http://localhost"
    else jsOrD env.clientUrl "http://localhost:5173"
  let url0 := base ++ roleDashboardPath (jsOrD req.session.loginRole "worker")
  let sep := if jsIncludes url0 "?" then "&" else "?"
  url0 ++ sep ++ "session_token=" ++
    env.encodeURIComponent ("s:" ++ signCookie env.sessionSecretHmac req.sessionID)

/-! ## Concrete fixtures for witnesses and counterexamples -/

/-- A concrete environment: no configured URLs, a constant HMAC, identity
URI-encoding, a fixed uuid draw. -/
def envC : Env :=
  { mobileAppUrl := none
    clientUrl := none
    sessionSecretHmac := fun _ => "MAC"
    encodeURIComponent := fun s => s
    uuid := "uuid-0" }

def emptyHeaders : Headers :=
  { cookie := none, xSessionToken := none, xAppPlatform := none, xClientType := none
    origin := none, referer := none, userAgent := none, contentType := none }

def emptyQuery : Query :=
  { platform := none, app := none, sessionToken := none }

def emptySession : SessionData :=
  { pendingCardId := none, user := none, samlUser := none, loginRole := none
    passport := false, isMobileApp := false }

/-- A fresh unauthenticated request. -/
def baseReq : Req :=
  { headers := emptyHeaders, query := emptyQuery, session := emptySession
    user := none, sessionID := "sid1" }

/-- A SAML user whose employeeNumber matches card `12345`. -/
def suW : SamlUser :=
  { nameID := some "G-1", employeeNumber := some "12345", email := some "w@x.example"
    firstName := some "Jo", lastName := some "Doe" }

/-- A SAML user asserting employeeNumber `99999`. -/
def su9 : SamlUser :=
  { nameID := some "99999", employeeNumber := some "99999", email := none
    firstName := none, lastName := none }

/-- The card-scan login request: pending card `12345`, passport user present. -/
def loginReq : Req :=
  { baseReq with
      session := { emptySession with pendingCardId := some "12345", passport := true }
      user := some suW }

/-- Outcome of the successful matching login. -/
def acsOut : HandlerOut Unit := acsHandler envC loginReq suW

/-- The state of a follow-up request after that successful login: the session
`acsHandler` saved, the passport login still in place. -/
def postLoginReq : Req :=
  { baseReq with session := acsOut.session.getD emptySession, user := acsOut.user }

/-- C1 counterexample: assertion carrying only a nameID equal to the pending
card id, with no employeeNumber attribute. -/
def c1su : SamlUser :=
  { nameID := some "12345", employeeNumber := none, email := none
    firstName := none, lastName := none }

def c1req : Req :=
  { baseReq with session := { emptySession with pendingCardId := some "12345" } }

/-- C2 counterexample: a card scan arrived on the already-authenticated
session (the stale `session.user` survives the scan), then the login
mismatches. -/
def c2req : Req :=
  { baseReq with
      session := { acsOut.session.getD emptySession with pendingCardId := some "12345" }
      user := acsOut.user }

def c2out : HandlerOut Unit := acsHandler envC c2req su9

/-- The follow-up status request after the mismatched attempt of `c2req`. -/
def c2post : Req :=
  { baseReq with session := c2out.session.getD emptySession, user := c2out.user }

/-- C2 witness: the same mismatch on a fresh session. -/
def c2wreq : Req :=
  { baseReq with session := { emptySession with pendingCardId := some "12345" } }

/-- C3: a card scan arriving on the authenticated session `postLoginReq`. -/
def c3out : HandlerOut CardScanPayload :=
  cardScanHandler envC postLoginReq (some (JsVal.jstr "67890"))

/-- The follow-up status request after that scan. -/
def c3post : Req :=
  { baseReq with session := c3out.session.getD emptySession, user := c3out.user }

/-- C5 counterexample: no cookie, no header, fallback token only in the
`session_token` query parameter. -/
def c5req : Req :=
  { baseReq with query := { emptyQuery with sessionToken := some "tok123" } }

/-- C5 witness: no cookie, token in the `X-Session-Token` header. -/
def c5wreq : Req :=
  { baseReq with headers := { emptyHeaders with xSessionToken := some "tok123" } }

/-- C8 witness: explicit mobile platform header on an otherwise
desktop-looking request. -/
def c8req : Req :=
  { baseReq with headers :=
      { emptyHeaders with
          xAppPlatform := some "mobile"
          origin := some "https://app.example.com"
          userAgent := some "Mozilla/5.0 (Windows NT 10.0; Win64; x64)" } }

/-- C7 witness HMAC: every character of the first two characters (padded) is
expanded to the pair `[c, 'A']`; output length is always 4, dot-free on the
witness input, and injective on two-character inputs. -/
def encChar (c : Char) : List Char := [c, 'A']

def hmacW (w : String) : String :=
  ⟨((w.data ++ ['A', 'A']).take 2).flatMap encChar⟩

/-! ## Helper lemmas -/

theorem head?_dropWhile_not (p : Char → Bool) (l : List Char) (c : Char)
    (h : (l.dropWhile p).head? = some c) : p c = false := by
  induction l with
  | nil => simp at h
  | cons a t ih =>
    by_cases hp : p a = true
    · rw [List.dropWhile_cons_of_pos hp] at h
      exact ih h
    · rw [List.dropWhile_cons_of_neg hp] at h
      simp only [List.head?_cons, Option.some.injEq] at h
      subst h
      exact Bool.eq_false_iff.mpr hp

theorem getLast?_dropWhile_of_ne_nil (p : Char → Bool) (l : List Char)
    (h : l.dropWhile p ≠ []) : (l.dropWhile p).getLast? = l.getLast? := by
  induction l with
  | nil => simp at h
  | cons a t ih =>
    by_cases hp : p a = true
    · rw [List.dropWhile_cons_of_pos hp] at h ⊢
      cases t with
      | nil => simp at h
      | cons b t' =>
        rw [List.getLast?_cons_cons]
        exact ih h
    · rw [List.dropWhile_cons_of_neg hp]

/-! ## Claim theorems -/

/-- C8: a request whose `X-App-Platform` header equals `mobile` is classified
as a mobile app by `isMobileApp` and as `mobile-app` by
`detectDeviceMiddleware`, regardless of every other signal. -/
theorem c8_platform_header_wins (req : Req)
    (h : req.headers.xAppPlatform = some "mobile") :
    isMobileApp req = true ∧ detectDevice req = DeviceType.mobileApp := by
  have hm : isMobileApp req = true := by
    unfold isMobileApp
    rw [h]
    simp
  exact ⟨hm, by unfold detectDevice; rw [hm]; rfl⟩

theorem c8_witness :
    c8req.headers.xAppPlatform = some "mobile" ∧ isMobileApp c8req = true ∧
      detectDevice c8req = DeviceType.mobileApp :=
  ⟨rfl, c8_platform_header_wins c8req rfl⟩

/-- C9: envelopes from `successResponse` carry `error = null` and the payload
in `data`; envelopes from `errorResponse` carry `data = null` and a populated
error object — exactly one of `data`/`error` is non-null. -/
theorem c9_envelope_exclusive (α : Type) (d : α) (cid : Option String) (uuid : String)
    (code message : String) (target : Option String) (details : List String)
    (cid2 : Option String) (uuid2 : String) :
    (successResponse d cid uuid).error = none ∧
    (successResponse d cid uuid).data = some d ∧
    ((errorResponse code message target details cid2 uuid2 : ApiResponse α)).data = none ∧
    ((errorResponse code message target details cid2 uuid2 : ApiResponse α)).error =
      some { code := code, message := message, target := target, details := details } ∧
    (successResponse d cid uuid).data.isSome ≠ (successResponse d cid uuid).error.isSome ∧
    ((errorResponse code message target details cid2 uuid2 : ApiResponse α)).data.isSome ≠
      ((errorResponse code message target details cid2 uuid2 : ApiResponse α)).error.isSome :=
  ⟨rfl, rfl, rfl, rfl, by simp [successResponse], by simp [errorResponse]⟩

/-- C10: a string `cardId` with non-empty trimmed content is stored trimmed
as the pending card id (hence never carries leading or trailing whitespace);
missing, non-string or whitespace-only values are rejected with HTTP 400 and
change nothing. -/
theorem c10_cardscan_trims (env : Env) (req : Req) (v : Option JsVal) :
    (∀ s, v = some (JsVal.jstr s) → jsTrim s ≠ "" →
      (cardScanHandler env req v).session.map SessionData.pendingCardId =
        some (some (jsTrim s)) ∧
      (∀ c, (jsTrim s).data.head? = some c → jsIsWs c = false) ∧
      (∀ c, (jsTrim s).data.getLast? = some c → jsIsWs c = false)) ∧
    (cardIdInvalid v = true →
      (cardScanHandler env req v).session = some req.session ∧
      (cardScanHandler env req v).user = req.user ∧
      (cardScanHandler env req v).resp = RouteResp.errorJson 400
        (errorResponse ERROR_CODES.VALIDATION_ERROR
          "cardId is required and must be a non-empty string" (some "cardId") [] none env.uuid)) := by
  constructor
  · intro s hv htrim
    subst hv
    have hs : ¬ s = "" := by
      intro he
      subst he
      exact htrim rfl
    have hinv : cardIdInvalid (some (JsVal.jstr s)) = false := by
      simp [cardIdInvalid, jsValTruthy, jsValIsString, hs, htrim]
    refine ⟨by simp [cardScanHandler, hinv], ?_, ?_⟩
    · intro c hc
      have hc' : ((((s.data.dropWhile jsIsWs).reverse.dropWhile jsIsWs).reverse)).head? =
          some c := hc
      rw [List.head?_reverse] at hc'
      have hne : (s.data.dropWhile jsIsWs).reverse.dropWhile jsIsWs ≠ [] := by
        intro he
        rw [he] at hc'
        simp at hc'
      rw [getLast?_dropWhile_of_ne_nil _ _ hne, List.getLast?_reverse] at hc'
      exact head?_dropWhile_not _ _ _ hc'
    · intro c hc
      have hc' : ((((s.data.dropWhile jsIsWs).reverse.dropWhile jsIsWs).reverse)).getLast? =
          some c := hc
      rw [List.getLast?_reverse] at hc'
      exact head?_dropWhile_not _ _ _ hc'
  · intro hinv
    refine ⟨by simp [cardScanHandler, hinv], by simp [cardScanHandler, hinv],
      by simp [cardScanHandler, hinv]⟩

theorem c10_witness :
    (cardScanHandler envC baseReq (some (JsVal.jstr "  12345 "))).session.map
        SessionData.pendingCardId = some (some "12345") := by
  have h := ((c10_cardscan_trims envC baseReq (some (JsVal.jstr "  12345 "))).1
    "  12345 " rfl (by decide)).1
  have ht : jsTrim "  12345 " = "12345" := by decide
  rw [ht] at h
  exact h

/-- C5 counterexample: with no cookie and no `X-Session-Token` header, a
fallback token carried only in the `session_token` query parameter is NOT
turned into a synthesized cookie — the middleware reads the header only. -/
theorem c5_counterexample :
    c5req.headers.cookie = none ∧ c5req.query.sessionToken = some "tok123" ∧
      (sessionTokenMiddleware c5req).headers.cookie = none :=
  ⟨rfl, rfl, rfl⟩

/-- C5 (amended): if no cookie is present and the `X-Session-Token` header
carries a token, the middleware synthesizes `saml.sid=<token>`; if a cookie
is present the request passes through unchanged (cookie wins); and the
`session_token` query parameter is never consulted by this middleware. -/
theorem c5_header_fallback_bridge (req : Req) (t : String) :
    (jsTruthy req.headers.cookie = false → req.headers.xSessionToken = some t →
      ¬ t = "" →
      (sessionTokenMiddleware req).headers.cookie = some ("saml.sid=" ++ t)) ∧
    (jsTruthy req.headers.cookie = true → sessionTokenMiddleware req = req) ∧
    (∀ q, sessionTokenMiddleware { req with query := { req.query with sessionToken := q } } =
      { sessionTokenMiddleware req with query := { req.query with sessionToken := q } }) := by
  refine ⟨?_, ?_, ?_⟩
  · intro hc ht htne
    have h2 : jsTruthy (some t) = true := by
      simp [jsTruthy, htne]
    simp [sessionTokenMiddleware, hc, ht, h2]
  · intro hc
    simp [sessionTokenMiddleware, hc]
  · intro q
    by_cases h : (!jsTruthy req.headers.cookie && jsTruthy req.headers.xSessionToken) = true
    · simp [sessionTokenMiddleware, h]
    · simp [sessionTokenMiddleware, h]

theorem c5_witness :
    (sessionTokenMiddleware c5wreq).headers.cookie = some "saml.sid=tok123" := by
  have h := (c5_header_fallback_bridge c5wreq "tok123").1 rfl rfl (by decide)
  simpa using h

/-- C1 counterexample: with a pending card scan `12345` and an assertion whose
employeeNumber is absent but whose nameID equals `12345`, the identifier match
succeeds (via the nameID fallback) and a session user is stored — yet its
`cardId` field is the absent employeeNumber, not the scanned card id. -/
theorem c1_counterexample :
    c1req.session.pendingCardId = some "12345" ∧
    jsOr c1su.employeeNumber c1su.nameID = some "12345" ∧
    ((acsHandler envC c1req c1su).session.bind SessionData.user).map SessionUser.cardId =
      some none ∧
    ¬ ((acsHandler envC c1req c1su).session.bind SessionData.user).map SessionUser.cardId =
      some (some "12345") := by
  decide

/-- C1 (amended): when a pending scan exists and the assertion's identifier
matches it *via a present (truthy) employeeNumber*, the stored identity's
`cardId` equals the scanned card id. (When the match succeeds only via the
nameID fallback, the stored `cardId` is the absent employeeNumber instead.) -/
theorem c1_cardid_matches_scan (env : Env) (req : Req) (su : SamlUser) (p : String)
    (hpend : req.session.pendingCardId = some p)
    (hemp : jsTruthy su.employeeNumber = true)
    (hmatch : jsOr su.employeeNumber su.nameID = some p) :
    ∃ sess user, (acsHandler env req su).session = some sess ∧
      sess.user = some user ∧ user.cardId = some p := by
  have hEmp : su.employeeNumber = some p := by
    rw [jsOr, if_pos hemp] at hmatch
    exact hmatch
  have hpt : jsTruthy req.session.pendingCardId = true := by
    rw [hpend, ← hEmp]
    exact hemp
  simp only [acsHandler, hpt, if_true]
  rw [if_neg (by rw [hmatch, hpend]; simp)]
  simp only [acsEstablish]
  exact ⟨_, _, rfl, rfl, hEmp⟩

theorem c1_witness :
    ∃ sess user, (acsHandler envC loginReq suW).session = some sess ∧
      sess.user = some user ∧ user.cardId = some "12345" :=
  c1_cardid_matches_scan envC loginReq suW "12345" rfl (by decide) (by decide)

/-- C2 counterexample: if the session still holds an authenticated user from
an earlier login (which a card scan does not clear), a mismatched attempt
does return 403 and drops the pending card id, but the subsequent status
query still reports authenticated — the claim's final conjunct fails. -/
theorem c2_counterexample :
    c2req.session.pendingCardId = some "12345" ∧
    ¬ jsOr su9.employeeNumber su9.nameID = some "12345" ∧
    c2out.resp = RouteResp.errorJson 403
      (errorResponse ERROR_CODES.AUTHORIZATION_ERROR
        "Card ID does not match authenticated user. Access denied." (some "cardValidation")
        [] none "uuid-0") ∧
    (statusRoute c2post).isAuthenticated = true := by
  decide

/-- C2 (amended): on an attempt whose session holds no authenticated user
from an earlier login, a mismatched assertion yields HTTP 403 with code
`AUTHORIZATION_ERROR`, the pending card id is dropped, no session user is
set, passport is logged out, and a subsequent status query reports not
authenticated. -/
theorem c2_mismatch_denies (env : Env) (req : Req) (su : SamlUser) (p : String)
    (hpend : req.session.pendingCardId = some p) (hp : ¬ p = "")
    (hmis : ¬ jsOr su.employeeNumber su.nameID = some p)
    (huser : req.session.user = none) :
    (acsHandler env req su).resp = RouteResp.errorJson 403
      (errorResponse ERROR_CODES.AUTHORIZATION_ERROR
        "Card ID does not match authenticated user. Access denied." (some "cardValidation")
        [] none env.uuid) ∧
    (acsHandler env req su).session.map SessionData.pendingCardId = some none ∧
    (acsHandler env req su).session.map SessionData.user = some none ∧
    (acsHandler env req su).user = none ∧
    (statusRoute { req with
        session := (acsHandler env req su).session.getD emptySession,
        user := (acsHandler env req su).user }).isAuthenticated = false := by
  have hpt : jsTruthy req.session.pendingCardId = true := by
    rw [hpend]
    simp [jsTruthy, hp]
  have hout : acsHandler env req su =
      { session := some (clearSamlSession req.session)
        user := none
        resp := RouteResp.errorJson 403
          (errorResponse ERROR_CODES.AUTHORIZATION_ERROR
            "Card ID does not match authenticated user. Access denied."
            (some "cardValidation") [] none env.uuid) } := by
    simp only [acsHandler, hpt, if_true]
    rw [if_pos (by rw [hpend]; exact hmis)]
  refine ⟨by rw [hout], by rw [hout]; rfl, ?_, by rw [hout], ?_⟩
  · rw [hout]
    simp [clearSamlSession, huser]
  · rw [hout]
    simp [statusRoute, clearSamlSession, huser]

theorem c2_witness :
    (acsHandler envC c2wreq su9).resp = RouteResp.errorJson 403
      (errorResponse ERROR_CODES.AUTHORIZATION_ERROR
        "Card ID does not match authenticated user. Access denied." (some "cardValidation")
        [] none envC.uuid) ∧
    (acsHandler envC c2wreq su9).session.map SessionData.pendingCardId = some none ∧
    (acsHandler envC c2wreq su9).session.map SessionData.user = some none ∧
    (acsHandler envC c2wreq su9).user = none ∧
    (statusRoute { c2wreq with
        session := (acsHandler envC c2wreq su9).session.getD emptySession,
        user := (acsHandler envC c2wreq su9).user }).isAuthenticated = false :=
  c2_mismatch_denies envC c2wreq su9 "12345" rfl (by decide) (by decide) rfl

/-- C3 (code bug): a card scan on the authenticated session produced by
`acsHandler` does not destroy the authenticated identity — the logged-in
check tests `req.session.samlUser`, which no code path ever sets, so the
forced-logout branch never runs and `session.user` survives next to the new
pending card id; a status query still reports authenticated. -/
theorem c3_scan_keeps_stale_identity :
    (statusRoute postLoginReq).isAuthenticated = true ∧
    postLoginReq.session.samlUser = none ∧
    c3out.session.map SessionData.pendingCardId = some (some "67890") ∧
    c3out.session.bind SessionData.user = postLoginReq.session.user ∧
    ¬ c3out.session.bind SessionData.user = none ∧
    (statusRoute c3post).isAuthenticated = true := by
  decide

/-- C4 (code bug): `POST /saml/logout` on the authenticated session produced
by `acsHandler` is rejected with 401 by `requireSamlAuth` (which demands
`req.session.samlUser`, never set by the ACS flow) and the session survives,
instead of being destroyed with a success response. -/
theorem c4_logout_rejects_authenticated_session :
    (statusRoute postLoginReq).isAuthenticated = true ∧
    postLoginReq.user.isSome = true ∧
    postLoginReq.session.samlUser = none ∧
    (logoutRoute envC postLoginReq).resp = RouteResp.errorJson 401
      (errorResponse ERROR_CODES.AUTHENTICATION_ERROR
        "SAML authentication required. Please login via /saml/login" (some "authentication")
        [] none "uuid-0") ∧
    (logoutRoute envC postLoginReq).session = some postLoginReq.session := by
  decide

theorem roleDashboardPath_slash (r : String) :
    jsStartsWith (roleDashboardPath r) "/" = true := by
  unfold roleDashboardPath
  split_ifs <;> decide

theorem getRedirectUrl_slash (env : Env) (req : Req) (p : String)
    (h : jsStartsWith p "/" = true) :
    getRedirectUrl env req p =
      (if isMobileApp req then jsOrD env.mobileAppUrl "http://localhost"
       else jsOrD env.clientUrl "http://localhost:5173") ++ p := by
  simp only [getRedirectUrl, h, if_true]
  split <;> rfl

theorem acsEstablish_resp (env : Env) (req : Req) (sess : SessionData) (su : SamlUser)
    (hrole : sess.loginRole = req.session.loginRole) :
    (acsEstablish env req sess su).resp = RouteResp.redirect (specRedirectUrl env req) := by
  simp only [acsEstablish, specRedirectUrl, hrole]
  have h' : jsStartsWith
      (if jsOrD req.session.loginRole "worker" = "establishment" then "/dashboard/establishment"
       else if jsOrD req.session.loginRole "worker" = "department" then "/dashboard/department"
       else "/dashboard/worker") "/" = true :=
    roleDashboardPath_slash (jsOrD req.session.loginRole "worker")
  rw [getRedirectUrl_slash env req _ h']
  rfl

/-- C6: on every successful authentication (pending card matched, or no
pending card), `acsHandler` redirects to the device-class base URL
concatenated with the role's fixed dashboard path, and — regardless of
device class — appends the signed session token as a `session_token` query
parameter. -/
theorem c6_redirect_formula (env : Env) (req : Req) (su : SamlUser)
    (hnomis : jsTruthy req.session.pendingCardId = true →
      jsOr su.employeeNumber su.nameID = req.session.pendingCardId) :
    (acsHandler env req su).resp = RouteResp.redirect (specRedirectUrl env req) := by
  by_cases hp : jsTruthy req.session.pendingCardId = true
  · have heq := hnomis hp
    simp only [acsHandler, hp, if_true]
    rw [if_neg (by rw [heq]; simp)]
    exact acsEstablish_resp env req _ su rfl
  · simp only [acsHandler]
    rw [if_neg hp]
    exact acsEstablish_resp env req req.session su rfl

theorem c6_witness :
    (acsHandler envC baseReq suW).resp = RouteResp.redirect
      "http://localhost:5173/dashboard/worker?session_token=s:sid1.MAC" := by
  have h := c6_redirect_formula envC baseReq suW (fun hp => absurd hp (by decide))
  have hs : specRedirectUrl envC baseReq =
      "http://localhost:5173/dashboard/worker?session_token=s:sid1.MAC" := by decide
  rw [h, hs]

/-! ## C7: fallback-token round trip and tamper rejection -/

theorem splitLastDot_of_not_mem (b : List Char) (hb : '.' ∉ b) : splitLastDot b = none := by
  induction b with
  | nil => rfl
  | cons c cs ih =>
    have hc : ¬ c = '.' := by
      intro h
      exact hb (h ▸ List.mem_cons_self c cs)
    have hcs : '.' ∉ cs := fun h => hb (List.mem_cons_of_mem _ h)
    simp [splitLastDot, ih hcs, hc]

theorem splitLastDot_append (a b : List Char) (hb : '.' ∉ b) :
    splitLastDot (a ++ '.' :: b) = some (a, b) := by
  induction a with
  | nil => simp [splitLastDot, splitLastDot_of_not_mem b hb]
  | cons c a ih => simp [splitLastDot, ih]

theorem signCookie_data (hmac : String → String) (v : String) :
    (signCookie hmac v).data = v.data ++ '.' :: (hmac v).data := by
  have hdot : ".".data = ['.'] := rfl
  rw [signCookie, String.data_append, String.data_append, hdot, List.append_assoc]
  rfl

theorem signToken_data (hmac : String → String) (v : String) :
    (signToken hmac v).data = 's' :: ':' :: (v.data ++ '.' :: (hmac v).data) := by
  rw [signToken, String.data_append, signCookie_data]
  rfl

theorem getElem?_append_cons (l : List Char) (c : Char) (r : List Char) :
    (l ++ c :: r)[l.length]? = some c := by
  rw [List.getElem?_append_right (Nat.le_refl _)]
  simp

theorem drop_append_cons (l : List Char) (c : Char) (r : List Char) :
    (l ++ c :: r).drop (l.length + 1) = r := by
  rw [← List.drop_drop, List.drop_left]
  rfl

theorem verifyAndResolve_eq (hmac : String → String) (t : String) (rest : List Char)
    (h : t.data = 's' :: ':' :: rest) :
    verifyAndResolve hmac t = unsignCookie hmac ⟨rest⟩ := by
  obtain ⟨l⟩ := t
  have h' : l = 's' :: ':' :: rest := h
  subst h'
  simp [verifyAndResolve]

theorem unsignCookie_split (hmac : String → String) (input : String) (a b : List Char)
    (hsplit : splitLastDot input.data = some (a, b)) :
    unsignCookie hmac input = if signCookie hmac ⟨a⟩ = input then some ⟨a⟩ else none := by
  simp only [unsignCookie, hsplit]

theorem c7_roundtrip_aux (hmac : String → String) (x : String)
    (hdot : '.' ∉ (hmac x).data) :
    verifyAndResolve hmac (signToken hmac x) = some x := by
  rw [verifyAndResolve_eq hmac _ (x.data ++ '.' :: (hmac x).data) (signToken_data hmac x)]
  rw [unsignCookie_split hmac _ x.data ((hmac x).data)
    (splitLastDot_append x.data ((hmac x).data) hdot)]
  rw [if_pos (String.ext (by rw [signCookie_data]))]

theorem verify_sound (hmac : String → String) (t w : String)
    (h : verifyAndResolve hmac t = some w) :
    t.data = 's' :: ':' :: (w.data ++ '.' :: (hmac w).data) := by
  obtain ⟨l⟩ := t
  rcases l with _ | ⟨c1, l⟩
  · simp [verifyAndResolve] at h
  rcases l with _ | ⟨c2, rest⟩
  · simp [verifyAndResolve] at h
  simp only [verifyAndResolve] at h
  by_cases hc : c1 = 's' ∧ c2 = ':'
  · rw [if_pos hc] at h
    obtain ⟨hc1, hc2⟩ := hc
    subst hc1
    subst hc2
    simp only [unsignCookie] at h
    split at h
    next heq =>
      simp only [Option.some.injEq] at h
      rw [h] at heq
      have hrest : rest = (signCookie hmac w).data := by
        have hd := congrArg String.data heq
        exact hd.symm
      show 's' :: ':' :: rest = _
      rw [hrest, signCookie_data]
    next =>
      exact absurd h (by simp)
  · rw [if_neg hc] at h
    exact absurd h (by simp)

theorem c7_mutation_aux (hmac : String → String) (x : String) (L : Nat)
    (hfix : ∀ w, (hmac w).length = L)
    (hinj : ∀ w, w.length = x.length → ¬ w = x → ¬ hmac w = hmac x)
    (t' : String) (hmut : SingleBitMutation (signToken hmac x) t') :
    verifyAndResolve hmac t' = none := by
  cases hv : verifyAndResolve hmac t' with
  | none => rfl
  | some w =>
    exfalso
    obtain ⟨l, c, k, r, hval, h1, h2, hcc⟩ := hmut
    generalize hg : Char.ofNat (c.toNat ^^^ (1 <<< k)) = c2 at h2 hcc
    rw [signToken_data hmac x] at h1
    rw [verify_sound hmac t' w hv] at h2
    have hLx : (hmac x).data.length = L := hfix x
    have hLw : (hmac w).data.length = L := hfix w
    have hlen1 := congrArg List.length h1
    have hlen2 := congrArg List.length h2
    simp only [List.length_cons, List.length_append] at hlen1 hlen2
    have hXW : w.data.length = x.data.length := by omega
    have hcpos : ('s' :: ':' :: (x.data ++ '.' :: (hmac x).data))[l.length]? = some c := by
      rw [h1]
      exact getElem?_append_cons l c r
    have hcpos' : ('s' :: ':' :: (w.data ++ '.' :: (hmac w).data))[l.length]? = some c2 := by
      rw [h2]
      exact getElem?_append_cons l c2 r
    have hdropEq : ('s' :: ':' :: (x.data ++ '.' :: (hmac x).data)).drop (l.length + 1) =
        ('s' :: ':' :: (w.data ++ '.' :: (hmac w).data)).drop (l.length + 1) := by
      rw [h1, h2, drop_append_cons, drop_append_cons]
    have htakeEq : ('s' :: ':' :: (x.data ++ '.' :: (hmac x).data)).take l.length =
        ('s' :: ':' :: (w.data ++ '.' :: (hmac w).data)).take l.length := by
      rw [h1, h2, List.take_left, List.take_left]
    rcases Nat.lt_or_ge l.length 2 with hi | hi
    · have h01 : l.length = 0 ∨ l.length = 1 := by omega
      rcases h01 with h0 | h0
      · rw [h0] at hcpos hcpos'
        simp only [List.getElem?_cons_zero, Option.some.injEq] at hcpos hcpos'
        exact hcc (hcpos'.symm.trans hcpos)
      · rw [h0] at hcpos hcpos'
        rw [show (1 : Nat) = 0 + 1 from rfl] at hcpos hcpos'
        simp only [List.getElem?_cons_succ, List.getElem?_cons_zero,
          Option.some.injEq] at hcpos hcpos'
        exact hcc (hcpos'.symm.trans hcpos)
    · obtain ⟨j, hj⟩ : ∃ j, l.length = j + 2 := ⟨l.length - 2, by omega⟩
      rw [hj] at hcpos hcpos' hdropEq htakeEq hlen1 hlen2
      simp only [List.getElem?_cons_succ] at hcpos hcpos'
      have hdropEq' : (x.data ++ '.' :: (hmac x).data).drop (j + 1) =
          (w.data ++ '.' :: (hmac w).data).drop (j + 1) := by
        have hh := hdropEq
        rw [show j + 2 + 1 = (j + 1) + 1 + 1 from rfl, List.drop_succ_cons,
          List.drop_succ_cons, List.drop_succ_cons, List.drop_succ_cons] at hh
        exact hh
      have htakeEq' : (x.data ++ '.' :: (hmac x).data).take j =
          (w.data ++ '.' :: (hmac w).data).take j := by
        have hh := htakeEq
        rw [show j + 2 = (j + 1) + 1 from rfl, List.take_succ_cons, List.take_succ_cons,
          List.take_succ_cons, List.take_succ_cons] at hh
        simpa using hh
      rcases Nat.lt_trichotomy j x.data.length with hjx | hjx | hjx
      · -- mutation inside the identifier region: macs agree but identifiers differ
        have hcX : x.data[j]? = some c := by
          rw [List.getElem?_append_left hjx] at hcpos
          exact hcpos
        have hcW : w.data[j]? = some c2 := by
          rw [List.getElem?_append_left (by omega : j < w.data.length)] at hcpos'
          exact hcpos'
        have hmacEq : (hmac x).data = (hmac w).data := by
          have hh := hdropEq'
          rw [List.drop_append_eq_append_drop, List.drop_append_eq_append_drop] at hh
          have hz1 : j + 1 - x.data.length = 0 := Nat.sub_eq_zero_of_le (by omega)
          have hz2 : j + 1 - w.data.length = 0 := Nat.sub_eq_zero_of_le (by omega)
          rw [hz1, hz2] at hh
          simp only [List.drop_zero] at hh
          have hsplit := List.append_inj hh (by simp only [List.length_drop]; omega)
          have htail := hsplit.2
          simpa using htail
        have hwx : ¬ w = x := by
          intro he
          rw [he] at hcW
          rw [hcX] at hcW
          exact hcc (Option.some.inj hcW).symm
        exact hinj w hXW hwx (String.ext hmacEq.symm)
      · -- mutation at the separator: both characters are the dot
        have hcX : c = '.' := by
          rw [hjx, getElem?_append_cons] at hcpos
          exact (Option.some.inj hcpos).symm
        have hcW : c2 = '.' := by
          rw [hjx, show x.data.length = w.data.length from hXW.symm,
            getElem?_append_cons] at hcpos'
          exact (Option.some.inj hcpos').symm
        exact hcc (hcW.trans hcX.symm)
      · -- mutation inside the mac region: identifiers agree, macs must differ
        have hxw : x.data = w.data := by
          have hh := htakeEq'
          rw [List.take_append_eq_append_take, List.take_append_eq_append_take] at hh
          have hx1 : x.data.take j = x.data := List.take_of_length_le (by omega)
          have hw1 : w.data.take j = w.data := List.take_of_length_le (by omega)
          rw [hx1, hw1] at hh
          exact (List.append_inj hh hXW.symm).1
        have hxeqw : x = w := String.ext hxw
        have hcMX : (hmac x).data[j - x.data.length - 1]? = some c := by
          rw [List.getElem?_append_right (by omega)] at hcpos
          rw [show j - x.data.length = (j - x.data.length - 1) + 1 from by omega] at hcpos
          rw [List.getElem?_cons_succ] at hcpos
          exact hcpos
        have hcMW : (hmac w).data[j - x.data.length - 1]? = some c2 := by
          rw [List.getElem?_append_right (by omega)] at hcpos'
          rw [show j - w.data.length = (j - x.data.length - 1) + 1 from by omega] at hcpos'
          rw [List.getElem?_cons_succ] at hcpos'
          exact hcpos'
        rw [← hxeqw] at hcMW
        rw [hcMX] at hcMW
        exact hcc (Option.some.inj hcMW).symm

/-- C7: signing a session id `x` as `'s:' + x + '.' + hmac(x)` and resolving
it through the fallback verifier gives back exactly `x`; and every
single-bit mutation of the signed token is rejected. The HMAC is abstract
(external crypto library): the hypotheses record that its outputs have a
fixed length, that the output for `x` is dot-free (true of stripped base64),
and that no other input of the same length as `x` collides with `x`. -/
theorem c7_token_roundtrip_and_tamper (hmac : String → String) (x : String) (L : Nat)
    (hfix : ∀ w, (hmac w).length = L)
    (hdot : '.' ∉ (hmac x).data)
    (hinj : ∀ w, w.length = x.length → ¬ w = x → ¬ hmac w = hmac x) :
    verifyAndResolve hmac (signToken hmac x) = some x ∧
    ∀ t', SingleBitMutation (signToken hmac x) t' → verifyAndResolve hmac t' = none :=
  ⟨c7_roundtrip_aux hmac x hdot,
   fun t' hm => c7_mutation_aux hmac x L hfix hinj t' hm⟩

theorem hmacW_length (w : String) : (hmacW w).length = 4 := by
  obtain ⟨l⟩ := w
  rcases l with _ | ⟨a, _ | ⟨b, t⟩⟩ <;> rfl

theorem hmacW_dotfree : '.' ∉ (hmacW "ab").data := by decide

theorem hmacW_inj (w : String) (hlen : w.length = ("ab" : String).length)
    (hne : ¬ w = "ab") : ¬ hmacW w = hmacW "ab" := by
  intro he
  apply hne
  obtain ⟨l⟩ := w
  have hl : l.length = 2 := hlen
  rcases l with _ | ⟨a, _ | ⟨b, t⟩⟩
  · simp at hl
  · simp at hl
  · have ht : t = [] := by simpa using hl
    subst ht
    have hd : [a, 'A', b, 'A'] = ['a', 'A', 'b', 'A'] := congrArg String.data he
    simp only [List.cons.injEq, and_true] at hd
    obtain ⟨ha, -, hb⟩ := hd
    rw [ha, hb]

theorem c7_witness :
    verifyAndResolve hmacW (signToken hmacW "ab") = some "ab" ∧
    ∀ t', SingleBitMutation (signToken hmacW "ab") t' → verifyAndResolve hmacW t' = none :=
  c7_token_roundtrip_and_tamper hmacW "ab" 4 hmacW_length hmacW_dotfree hmacW_inj

end WorkerConnect
